import Mathlib

/-!
Shallow embedding of the alert-to-ticket reconciliation core of the
kumawise repository (src/app.py and src/connectwise.py).

The embedding models:
* the alert payload fields read by `handle_alert_logic` (`AlertData`);
* the Redis state cache as an association list from keys to the stored
  ticket ids (every value the program ever stores is `str(ticket_id)` for an
  integer ticket id, so values are modelled as `Nat`), together with a
  `cacheUp` flag: when the cache backend is unreachable, the first cache
  operation of an invocation raises;
* the ConnectWise PSA backend as a list of tickets plus transport-failure
  flags (`findFails`, `createFails`, `closeFails`) describing whether each
  HTTP call of the invocation fails (the Python client catches
  `RequestException` and returns `None` / `False` in that case);
* `handle_alert_logic` itself (src/app.py, lines 82-162) as a pure function
  from the payload and the world to a `RunResult` (the recorded metric
  outcomes, the trace of external calls, whether the function re-raised, and
  the duration observation) and the updated world;
* the Celery retry driver of `process_alert_task` (src/app.py, lines
  164-171, `max_retries=5`, `countdown = 2 ** retries * 60`);
* `ConnectWiseClient.close_ticket` (src/connectwise.py, lines 121-161) at
  the HTTP-call granularity, to settle its atomicity behaviour.
-/

/-- `CACHE_PREFIX` from src/app.py line 65. -/
def CACHE_PREFIX : String := "ticket_state:"

/-- `CACHE_TTL` from src/app.py line 66 (seconds). -/
def CACHE_TTL : Nat := 3600

/-- The fields of the webhook payload that `handle_alert_logic` reads:
`heartbeat.status`, `monitor.name`, `monitor.url`, top-level `msg` and
`heartbeat.time`.  Each is optional, mirroring the defensive `.get` calls. -/
structure AlertData where
  status : Option Int
  monitorName : Option String
  monitorUrl : Option String
  msg : Option String
  hbTime : Option String
  deriving DecidableEq

/-- A ticket as held by the PSA backend: id, summary and the closed flag
used by `find_open_ticket`'s `closedFlag=false` condition. -/
structure PsaTicket where
  id : Nat
  summary : String
  closedFlag : Bool
  deriving DecidableEq

/-- The external world an invocation runs against: the cache contents and
reachability, the PSA ticket store and its id counter, and per-operation
transport-failure flags for the three ConnectWise calls. -/
structure World where
  cache : List (String × Nat)
  cacheUp : Bool
  tickets : List PsaTicket
  nextId : Nat
  findFails : Bool
  createFails : Bool
  closeFails : Bool
  deriving DecidableEq

/-- The network calls `handle_alert_logic` can issue, in order: Redis
GET/SETEX/DEL and the three ConnectWise client operations. -/
inductive Call where
  | get (key : String)
  | setEx (key : String) (value ttl : Nat)
  | del (key : String)
  | findT (summaryContains : String)
  | createT (summary : String) (companyId : Option String)
  | closeT (ticketId : Nat)
  deriving DecidableEq

/-- A `PSA_TASK_COUNT.labels(type=ty, result=result).inc()` event. -/
inductive Outcome where
  | counter (ty result : String)
  deriving DecidableEq

/-- What one invocation of `handle_alert_logic` did: the outcome counters it
incremented, the external calls it made, whether it re-raised to its caller,
and the label of the `PSA_TASK_DURATION` observation if line 157 was
reached. -/
structure RunResult where
  outcomes : List Outcome
  calls : List Call
  raised : Bool
  durationType : Option String
  deriving DecidableEq

/-- Redis GET on the modelled cache. -/
def cacheLookup (c : List (String × Nat)) (k : String) : Option Nat :=
  (c.find? (fun p => p.1 == k)).map (fun p => p.2)

/-- Redis SET (overwrite) on the modelled cache. -/
def cSet (c : List (String × Nat)) (k : String) (v : Nat) : List (String × Nat) :=
  (k, v) :: c.filter (fun p => p.1 != k)

/-- Redis DEL on the modelled cache. -/
def cDel (c : List (String × Nat)) (k : String) : List (String × Nat) :=
  c.filter (fun p => p.1 != k)

/-- `needle` starts `hay` (character lists). -/
def startsWithChars : List Char → List Char → Bool
  | [], _ => true
  | _ :: _, [] => false
  | a :: as, b :: bs => a == b && startsWithChars as bs

/-- `needle` occurs somewhere inside `hay` (character lists). -/
def containsSubChars (needle : List Char) : List Char → Bool
  | [] => startsWithChars needle []
  | c :: t => startsWithChars needle (c :: t) || containsSubChars needle t

/-- The `summary contains '<s>'` condition of `find_open_ticket`'s query
(src/connectwise.py line 60). -/
def containsSub (hay needle : String) : Bool :=
  containsSubChars needle.data hay.data

/-- `ConnectWiseClient.find_open_ticket` (src/connectwise.py lines 48-78):
returns the first non-closed ticket whose summary contains the given text;
on a transport failure the exception is caught and `None` is returned. -/
def find_open_ticket (w : World) (summaryContains : String) : Option PsaTicket :=
  if w.findFails then none
  else w.tickets.find? (fun t => !t.closedFlag && containsSub t.summary summaryContains)

/-- `ConnectWiseClient.create_ticket` (src/connectwise.py lines 80-119) as
seen by the app: on success a fresh open ticket with the given summary is
added to the PSA store and returned; on a transport failure the exception is
caught and `None` is returned. -/
def create_ticket_psa (w : World) (summary : String) : Option PsaTicket × World :=
  if w.createFails then (none, w)
  else
    let t : PsaTicket := ⟨w.nextId, summary, false⟩
    (some t, { w with tickets := w.tickets ++ [t], nextId := w.nextId + 1 })

/-- `ConnectWiseClient.close_ticket` as seen by the app (boolean result;
the finer HTTP-level behaviour is modelled separately below): on success the
ticket is marked closed and `True` is returned, on failure `False`. -/
def close_ticket_psa (w : World) (ticketId : Nat) : Bool × World :=
  if w.closeFails then (false, w)
  else
    (true,
      { w with
        tickets := w.tickets.map
          (fun t => if t.id == ticketId then { t with closedFlag := true } else t) })

/-- Python's `\w` for the ASCII inputs at hand: letters, digits, underscore. -/
def isWordChar (c : Char) : Bool :=
  c.isAlphanum || c == '_'

/-- `re.search(r'#CW(\w+)', s)`: scan left to right for `#CW` followed by at
least one word character; the capture group is the maximal word-character
run (greedy `\w+`); the first position where the whole pattern matches
wins. -/
def searchCW : List Char → Option String
  | [] => none
  | '#' :: rest =>
    match rest with
    | 'C' :: 'W' :: rest2 =>
      let tok := rest2.takeWhile isWordChar
      if tok.isEmpty then searchCW rest else some (String.mk tok)
    | _ => searchCW rest
  | _ :: rest => searchCW rest

/-- Company-id extraction from the monitor name (src/app.py lines 120-121). -/
def extract_company_id (monitorName : String) : Option String :=
  searchCW monitorName.data

/-- `target_company_id = company_id or os.getenv('CW_DEFAULT_COMPANY_ID')`
followed by `if target_company_id:` (src/connectwise.py lines 103-106),
with Python's falsiness of `None` and `""`: the company identifier included
in the ticket-creation payload, `none` when no company field is sent. -/
def target_company_id (company_id : Option String) (envDefault : Option String) : Option String :=
  let t :=
    match company_id with
    | some s => if s = "" then envDefault else some s
    | none => envDefault
  match t with
  | some s => if s = "" then none else some s
  | none => none

/-- `monitor.get('name', ...)` default (src/app.py line 91). -/
def monitorNameOf (d : AlertData) : String :=
  d.monitorName.getD "Unknown Monitor"

/-- `ticket_summary` (src/app.py line 96): `f"{prefix} {monitor_name}"` when
the configured title pfx is truthy (non-empty), else the bare name. -/
def ticketSummaryOf (pfx : String) (d : AlertData) : String :=
  if pfx = "" then monitorNameOf d else pfx ++ " " ++ monitorNameOf d

/-- `cache_key` (src/app.py line 97). -/
def cacheKeyOf (d : AlertData) : String :=
  CACHE_PREFIX ++ monitorNameOf d

/-- The tail of the UP path after `ticket_id` has been resolved (src/app.py
lines 145-155).  `calls0` is the trace accumulated so far.  Python's
`if ticket_id:` is truthiness on `Optional[int]`: both `None` and `0` take
the skip branch. -/
def up_after_resolve (w : World) (d : AlertData) (calls0 : List Call)
    (ticket_id : Option Nat) : RunResult × World :=
  match ticket_id with
  | some i =>
    if i ≠ 0 then
      match close_ticket_psa w i with
      | (true, w1) =>
        (⟨[Outcome.counter "close" "success"],
          calls0 ++ [Call.closeT i, Call.del (cacheKeyOf d)], false, some "UP"⟩,
         { w1 with cache := cDel w1.cache (cacheKeyOf d) })
      | (false, w1) =>
        (⟨[], calls0 ++ [Call.closeT i], false, some "UP"⟩, w1)
    else
      (⟨[Outcome.counter "close" "skipped"], calls0, false, some "UP"⟩, w)
  | none =>
    (⟨[Outcome.counter "close" "skipped"], calls0, false, some "UP"⟩, w)

/-- `handle_alert_logic` (src/app.py lines 82-162).  When the cache backend
is down, the very first operation of either branch — the Redis GET — raises;
the surrounding `except` records an error counter labelled with
`alert_type.lower()` and re-raises.  An early `return` (cache hit, PSA hit)
skips the duration observation of line 157; a failed creation or a failed
close records no counter at all and falls through to it. -/
def handle_alert_logic (pfx : String) (w : World) (d : AlertData) : RunResult × World :=
  if d.status = some 0 then
    -- DOWN path, lines 100-129
    if w.cacheUp = false then
      (⟨[Outcome.counter "down" "error"], [Call.get (cacheKeyOf d)], true, none⟩, w)
    else
      match cacheLookup w.cache (cacheKeyOf d) with
      | some _ =>
        (⟨[Outcome.counter "create" "skipped"], [Call.get (cacheKeyOf d)], false, none⟩, w)
      | none =>
        match find_open_ticket w (ticketSummaryOf pfx d) with
        | some t =>
          (⟨[Outcome.counter "create" "skipped"],
            [Call.get (cacheKeyOf d), Call.findT (ticketSummaryOf pfx d),
             Call.setEx (cacheKeyOf d) t.id CACHE_TTL], false, none⟩,
           { w with cache := cSet w.cache (cacheKeyOf d) t.id })
        | none =>
          match create_ticket_psa w (ticketSummaryOf pfx d) with
          | (some t, w1) =>
            (⟨[Outcome.counter "create" "success"],
              [Call.get (cacheKeyOf d), Call.findT (ticketSummaryOf pfx d),
               Call.createT (ticketSummaryOf pfx d) (extract_company_id (monitorNameOf d)),
               Call.setEx (cacheKeyOf d) t.id CACHE_TTL], false, some "DOWN"⟩,
             { w1 with cache := cSet w1.cache (cacheKeyOf d) t.id })
          | (none, w1) =>
            (⟨[], [Call.get (cacheKeyOf d), Call.findT (ticketSummaryOf pfx d),
               Call.createT (ticketSummaryOf pfx d) (extract_company_id (monitorNameOf d))],
              false, some "DOWN"⟩, w1)
  else if d.status = some 1 then
    -- UP path, lines 131-155
    if w.cacheUp = false then
      (⟨[Outcome.counter "up" "error"], [Call.get (cacheKeyOf d)], true, none⟩, w)
    else
      match cacheLookup w.cache (cacheKeyOf d) with
      | some v =>
        up_after_resolve w d [Call.get (cacheKeyOf d)] (some v)
      | none =>
        match find_open_ticket w (ticketSummaryOf pfx d) with
        | some t =>
          up_after_resolve w d
            [Call.get (cacheKeyOf d), Call.findT (ticketSummaryOf pfx d)] (some t.id)
        | none =>
          up_after_resolve w d
            [Call.get (cacheKeyOf d), Call.findT (ticketSummaryOf pfx d)] none
  else
    -- OTHER status: neither branch runs; `alert_type` is "UP" (line 94)
    -- and only the duration observation of line 157 happens.
    (⟨[], [], false, some "UP"⟩, w)

/-- The ticket id the UP path resolves: the cached value if present, else
the id of the open PSA ticket found by summary, else none. -/
def resolved_ticket_id (pfx : String) (w : World) (d : AlertData) : Option Nat :=
  match cacheLookup w.cache (cacheKeyOf d) with
  | some v => some v
  | none =>
    match find_open_ticket w (ticketSummaryOf pfx d) with
    | some t => some t.id
    | none => none

/-- Number of `create_ticket` calls in a trace. -/
def createCalls (cs : List Call) : Nat :=
  (cs.filter (fun c => match c with | Call.createT _ _ => true | _ => false)).length

/-- `countdown = 2 ** self.request.retries * 60` (src/app.py line 170). -/
def retry_delay (retries : Nat) : Nat := 2 ^ retries * 60

/-- The visible result of driving one enqueued unit to completion: how many
times its body was executed, the backoff delays between executions, and
whether it ended permanently failed. -/
structure TaskResult where
  attempts : Nat
  delays : List Nat
  permFailed : Bool
  deriving DecidableEq

/-- Celery's retry driver for a task with `max_retries` retries remaining:
execute the body at attempt index `k` (`self.request.retries = k`); on
failure with retries remaining, wait `retry_delay k` and try again; on
failure with none remaining, the `self.retry` call raises
`MaxRetriesExceededError` and the unit is permanently failed. -/
def runAttempts (failsOn : Nat → Bool) : Nat → Nat → TaskResult
  | k, 0 => if failsOn k then ⟨k + 1, [], true⟩ else ⟨k + 1, [], false⟩
  | k, r + 1 =>
    if failsOn k then
      let rest := runAttempts failsOn (k + 1) r
      ⟨rest.attempts, retry_delay k :: rest.delays, rest.permFailed⟩
    else ⟨k + 1, [], false⟩

/-- `process_alert_task` (src/app.py lines 164-171): the Celery task with
`max_retries=5` whose body re-raises into `self.retry` with the exponential
countdown of line 170.  `failsOn k` says whether execution number `k`
(0-based) raises. -/
def process_alert_task (failsOn : Nat → Bool) : TaskResult :=
  runAttempts failsOn 0 5

/-- The HTTP-level environment of one `ConnectWiseClient.close_ticket` call:
whether the status PATCH raises a transport exception, whether it returns a
2xx status (`raise_for_status`), whether the note POST raises, and the
note's HTTP status (which line 152 never inspects). -/
structure CloseEnv where
  patchRaises : Bool
  patchStatusOk : Bool
  noteRaises : Bool
  noteStatusOk : Bool
  deriving DecidableEq

/-- What a `close_ticket` call produced: its boolean return value and
whether the ticket's status was actually changed on the server. -/
structure CloseOutcome where
  returned : Bool
  statusChanged : Bool
  deriving DecidableEq

/-- `ConnectWiseClient.close_ticket` (src/connectwise.py lines 121-161):
PATCH the status (checked with `raise_for_status`), then POST the resolution
note without checking its response, return `True`; any `RequestException`
from either request is caught and `False` is returned.  `noteStatusOk` is
deliberately unread: line 152 has no `raise_for_status`. -/
def close_ticket (e : CloseEnv) : CloseOutcome :=
  if e.patchRaises then ⟨false, false⟩
  else if e.patchStatusOk = false then ⟨false, false⟩
  else if e.noteRaises then ⟨false, true⟩
  else ⟨true, true⟩

/-! Helper lemmas about the modelled cache. -/

theorem cacheLookup_cSet_same (c : List (String × Nat)) (k : String) (v : Nat) :
    cacheLookup (cSet c k v) k = some v := by
  simp [cacheLookup, cSet]

theorem cacheLookup_cDel_same (c : List (String × Nat)) (k : String) :
    cacheLookup (cDel c k) k = none := by
  induction c with
  | nil => simp [cacheLookup, cDel]
  | cons p t ih =>
    by_cases h : p.1 = k
    · simp [cacheLookup, cDel, h] at ih ⊢
    · simp [cacheLookup, cDel, h, List.find?] at ih ⊢

/-! Concrete payloads and worlds used by witnesses and counterexamples. -/

/-- A concrete alert payload for monitor `DB` with the given status. -/
def exD (st : Option Int) : AlertData :=
  { status := st, monitorName := some "DB", monitorUrl := none,
    msg := some "timeout", hbTime := some "T1" }

/-- A healthy world: empty cache, reachable backends, no PSA tickets. -/
def exW : World :=
  { cache := [], cacheUp := true, tickets := [], nextId := 1,
    findFails := false, createFails := false, closeFails := false }

/-- C6: on a DOWN alert whose cache lookup hits, the engine records the
create/skipped outcome and returns having made only the cache GET: no
`find_open_ticket`, no `create_ticket`, no cache write, world unchanged. -/
theorem c6_cache_hit_frame (pfx : String) (w : World) (d : AlertData) (v : Nat)
    (hs : d.status = some 0) (hc : w.cacheUp = true)
    (hl : cacheLookup w.cache (cacheKeyOf d) = some v) :
    handle_alert_logic pfx w d =
      (⟨[Outcome.counter "create" "skipped"], [Call.get (cacheKeyOf d)], false, none⟩, w) := by
  simp [handle_alert_logic, hs, hc, hl]

/-- Witness for C6 at a concrete cache-hit input. -/
theorem c6_cache_hit_frame_witness :
    handle_alert_logic "Uptime Kuma Alert:" { exW with cache := [("ticket_state:DB", 7)] }
        (exD (some 0)) =
      (⟨[Outcome.counter "create" "skipped"], [Call.get "ticket_state:DB"], false, none⟩,
       { exW with cache := [("ticket_state:DB", 7)] }) :=
  c6_cache_hit_frame "Uptime Kuma Alert:" _ _ 7 (by decide) (by decide) (by decide)

/-- C7: on a DOWN alert with a cache miss where the PSA holds an open
matching ticket, the engine records the skipped outcome and writes that
ticket's id into the cache under the monitor's key with the TTL before
returning; afterwards the cache lookup for the key yields the id. -/
theorem c7_cache_self_heal (pfx : String) (w : World) (d : AlertData) (t : PsaTicket)
    (hs : d.status = some 0) (hc : w.cacheUp = true)
    (hl : cacheLookup w.cache (cacheKeyOf d) = none)
    (hfo : find_open_ticket w (ticketSummaryOf pfx d) = some t) :
    handle_alert_logic pfx w d =
      (⟨[Outcome.counter "create" "skipped"],
        [Call.get (cacheKeyOf d), Call.findT (ticketSummaryOf pfx d),
         Call.setEx (cacheKeyOf d) t.id CACHE_TTL], false, none⟩,
       { w with cache := cSet w.cache (cacheKeyOf d) t.id })
    ∧ cacheLookup (handle_alert_logic pfx w d).2.cache (cacheKeyOf d) = some t.id := by
  constructor
  · simp [handle_alert_logic, hs, hc, hl, hfo]
  · simp [handle_alert_logic, hs, hc, hl, hfo, cacheLookup_cSet_same]

/-- Witness for C7 at a concrete input: empty cache, one open PSA ticket. -/
theorem c7_cache_self_heal_witness :
    handle_alert_logic "Uptime Kuma Alert:"
        { exW with tickets := [⟨42, "Uptime Kuma Alert: DB", false⟩] } (exD (some 0)) =
      (⟨[Outcome.counter "create" "skipped"],
        [Call.get "ticket_state:DB", Call.findT "Uptime Kuma Alert: DB",
         Call.setEx "ticket_state:DB" 42 CACHE_TTL], false, none⟩,
       { exW with tickets := [⟨42, "Uptime Kuma Alert: DB", false⟩],
                  cache := [("ticket_state:DB", 42)] })
    ∧ cacheLookup
        (handle_alert_logic "Uptime Kuma Alert:"
          { exW with tickets := [⟨42, "Uptime Kuma Alert: DB", false⟩] }
          (exD (some 0))).2.cache "ticket_state:DB" = some 42 :=
  c7_cache_self_heal "Uptime Kuma Alert:" _ _ ⟨42, "Uptime Kuma Alert: DB", false⟩
    (by decide) (by decide) (by decide) (by decide)

/-- C5 counterexample: a status-2 (OTHER) alert records no outcome counter
at all — in particular no "ignored" outcome, contrary to the claim; only
the duration metric (labelled "UP") is observed.  No calls are made. -/
theorem c5_other_status_counterexample :
    handle_alert_logic "Uptime Kuma Alert:" exW (exD (some 2)) =
      (⟨[], [], false, some "UP"⟩, exW) := by
  decide

/-- C5 amended: an alert whose status is neither 0 nor 1 is a no-op making
no cache or PSA calls and recording no outcome counter; the only effect is
the duration observation, labelled "UP" because line 94 classifies every
non-0 status as "UP". -/
theorem c5_other_status_amended (pfx : String) (w : World) (d : AlertData)
    (h0 : d.status ≠ some 0) (h1 : d.status ≠ some 1) :
    handle_alert_logic pfx w d = (⟨[], [], false, some "UP"⟩, w) := by
  simp [handle_alert_logic, h0, h1]

/-- Witness for the amended C5 at a concrete status-2 payload. -/
theorem c5_other_status_amended_witness :
    handle_alert_logic "Uptime Kuma Alert:" exW (exD (some 2)) =
      (⟨[], [], false, some "UP"⟩, exW) :=
  c5_other_status_amended "Uptime Kuma Alert:" exW (exD (some 2)) (by decide) (by decide)

/-- C2 counterexample: with the cache backend unreachable, a DOWN alert does
not fall through to the PSA query — the only call made is the failing cache
GET, an error outcome is recorded, and the engine re-raises to its caller
(`raised = true`), contrary to the claim that processing is never blocked. -/
theorem c2_cache_error_counterexample :
    handle_alert_logic "Uptime Kuma Alert:" { exW with cacheUp := false } (exD (some 0)) =
      (⟨[Outcome.counter "down" "error"], [Call.get "ticket_state:DB"], true, none⟩,
       { exW with cacheUp := false }) := by
  decide

/-- C2 amended: when the cache GET raises, the engine does not treat the
cache as empty; the exception handler records an error outcome (labelled
"down"/"up") and re-raises, so the invocation is aborted without any
TicketRepository call and with the world unchanged — recovery is left to
the task-level retry policy. -/
theorem c2_cache_error_amended (pfx : String) (w : World) (d : AlertData)
    (hs : d.status = some 0 ∨ d.status = some 1) (hc : w.cacheUp = false) :
    handle_alert_logic pfx w d =
      (⟨[Outcome.counter (if d.status = some 0 then "down" else "up") "error"],
        [Call.get (cacheKeyOf d)], true, none⟩, w) := by
  rcases hs with h | h <;> simp [handle_alert_logic, h, hc]

/-- Witness for the amended C2 at a concrete UP alert with the cache down. -/
theorem c2_cache_error_amended_witness :
    handle_alert_logic "Uptime Kuma Alert:" { exW with cacheUp := false } (exD (some 1)) =
      (⟨[Outcome.counter (if (exD (some 1)).status = some 0 then "down" else "up") "error"],
        [Call.get (cacheKeyOf (exD (some 1)))], true, none⟩,
       { exW with cacheUp := false }) :=
  c2_cache_error_amended "Uptime Kuma Alert:" { exW with cacheUp := false } (exD (some 1))
    (Or.inr (by decide)) (by decide)

/-- C3 counterexample: on a DOWN alert with an empty cache, no existing PSA
ticket and a failing `create_ticket` (it returns `None`), the engine records
no outcome counter at all — in particular no error-class outcome, contrary
to the claim — though it does return without raising. -/
theorem c3_null_create_counterexample :
    (handle_alert_logic "Uptime Kuma Alert:" { exW with createFails := true }
        (exD (some 0))).1.outcomes = []
    ∧ (handle_alert_logic "Uptime Kuma Alert:" { exW with createFails := true }
        (exD (some 0))).1.raised = false := by
  decide

/-- C3 amended: when `create_ticket` returns null on the DOWN path, the
engine returns without raising, but it records no outcome counter at all
(neither success nor error); the only remaining effect is the duration
observation, and the world is left unchanged. -/
theorem c3_null_create_amended (pfx : String) (w : World) (d : AlertData)
    (hs : d.status = some 0) (hc : w.cacheUp = true)
    (hl : cacheLookup w.cache (cacheKeyOf d) = none)
    (hfo : find_open_ticket w (ticketSummaryOf pfx d) = none)
    (hcf : w.createFails = true) :
    handle_alert_logic pfx w d =
      (⟨[], [Call.get (cacheKeyOf d), Call.findT (ticketSummaryOf pfx d),
         Call.createT (ticketSummaryOf pfx d) (extract_company_id (monitorNameOf d))],
        false, some "DOWN"⟩, w) := by
  simp [handle_alert_logic, hs, hc, hl, hfo, create_ticket_psa, hcf]

/-- Witness for the amended C3 at a concrete failing-create input. -/
theorem c3_null_create_amended_witness :
    handle_alert_logic "Uptime Kuma Alert:" { exW with createFails := true } (exD (some 0)) =
      (⟨[], [Call.get "ticket_state:DB", Call.findT "Uptime Kuma Alert: DB",
         Call.createT "Uptime Kuma Alert: DB" (extract_company_id "DB")],
        false, some "DOWN"⟩, { exW with createFails := true }) :=
  c3_null_create_amended "Uptime Kuma Alert:" { exW with createFails := true } (exD (some 0))
    (by decide) (by decide) (by decide) (by decide) (by decide)

/-- C1: with the cache reachable and the PSA backend answering without
transport failures, two consecutive DOWN alerts for the same monitor make at
most one `create_ticket` call in total; the second invocation records the
skipped outcome and makes no `create_ticket` call, because the cache (or,
failing that, the PSA lookup) already knows the open ticket. -/
theorem c1_idempotent_creation (pfx : String) (w : World) (d : AlertData)
    (hs : d.status = some 0) (hc : w.cacheUp = true)
    (_hff : w.findFails = false) (hcf : w.createFails = false) :
    createCalls (handle_alert_logic pfx w d).1.calls
        + createCalls (handle_alert_logic pfx (handle_alert_logic pfx w d).2 d).1.calls ≤ 1
    ∧ (handle_alert_logic pfx (handle_alert_logic pfx w d).2 d).1.outcomes
        = [Outcome.counter "create" "skipped"]
    ∧ createCalls (handle_alert_logic pfx (handle_alert_logic pfx w d).2 d).1.calls = 0
    ∧ (cacheLookup (handle_alert_logic pfx w d).2.cache (cacheKeyOf d) ≠ none
       ∨ find_open_ticket (handle_alert_logic pfx w d).2 (ticketSummaryOf pfx d) ≠ none) := by
  rcases hl : cacheLookup w.cache (cacheKeyOf d) with _ | v
  · rcases hfo : find_open_ticket w (ticketSummaryOf pfx d) with _ | t
    · simp [handle_alert_logic, hs, hc, hl, hfo, create_ticket_psa, hcf,
        cacheLookup_cSet_same, createCalls]
    · simp [handle_alert_logic, hs, hc, hl, hfo, cacheLookup_cSet_same, createCalls]
  · simp [handle_alert_logic, hs, hc, hl, createCalls]

/-- Witness for C1: two consecutive DOWN alerts starting from a healthy
empty world create exactly one ticket and the second run skips. -/
theorem c1_idempotent_creation_witness :
    createCalls (handle_alert_logic "Uptime Kuma Alert:" exW (exD (some 0))).1.calls
        + createCalls (handle_alert_logic "Uptime Kuma Alert:"
            (handle_alert_logic "Uptime Kuma Alert:" exW (exD (some 0))).2
            (exD (some 0))).1.calls ≤ 1
    ∧ (handle_alert_logic "Uptime Kuma Alert:"
        (handle_alert_logic "Uptime Kuma Alert:" exW (exD (some 0))).2
        (exD (some 0))).1.outcomes = [Outcome.counter "create" "skipped"]
    ∧ createCalls (handle_alert_logic "Uptime Kuma Alert:"
        (handle_alert_logic "Uptime Kuma Alert:" exW (exD (some 0))).2
        (exD (some 0))).1.calls = 0
    ∧ (cacheLookup (handle_alert_logic "Uptime Kuma Alert:" exW
          (exD (some 0))).2.cache (cacheKeyOf (exD (some 0))) ≠ none
       ∨ find_open_ticket (handle_alert_logic "Uptime Kuma Alert:" exW (exD (some 0))).2
          (ticketSummaryOf "Uptime Kuma Alert:" (exD (some 0))) ≠ none) :=
  c1_idempotent_creation "Uptime Kuma Alert:" exW (exD (some 0))
    (by decide) (by decide) (by decide) (by decide)

/-- C4 counterexample: on an UP alert with a cached ticket id whose
`close_ticket` call fails, the engine records no outcome counter at all —
in particular no error outcome, contrary to the claim.  The trace shows the
close was attempted. -/
theorem c4_up_close_counterexample :
    (handle_alert_logic "Uptime Kuma Alert:"
        { exW with cache := [("ticket_state:DB", 7)], closeFails := true }
        (exD (some 1))).1.outcomes = []
    ∧ (handle_alert_logic "Uptime Kuma Alert:"
        { exW with cache := [("ticket_state:DB", 7)], closeFails := true }
        (exD (some 1))).1.calls = [Call.get "ticket_state:DB", Call.closeT 7] := by
  decide

/-- C4 amended: on an UP alert (with the cache reachable and the resolved
id nonzero, as real ConnectWise ticket ids are), `close_ticket` is called
exactly when a ticket id is resolved from the cache or, failing that, from
`find_open_ticket`; when the close succeeds the cache entry is deleted and a
success outcome recorded; when it fails no outcome counter is recorded at
all (the original claim's "error outcome is recorded" does not hold); when
no id is resolved a skip outcome is recorded and no close call occurs. -/
theorem c4_up_close_amended (pfx : String) (w : World) (d : AlertData)
    (hs : d.status = some 1) (hc : w.cacheUp = true)
    (h0 : resolved_ticket_id pfx w d ≠ some 0) :
    (∀ i : Nat, Call.closeT i ∈ (handle_alert_logic pfx w d).1.calls
        ↔ resolved_ticket_id pfx w d = some i)
    ∧ (resolved_ticket_id pfx w d = none →
        (handle_alert_logic pfx w d).1.outcomes = [Outcome.counter "close" "skipped"])
    ∧ (∀ i : Nat, resolved_ticket_id pfx w d = some i → w.closeFails = false →
        (handle_alert_logic pfx w d).1.outcomes = [Outcome.counter "close" "success"]
        ∧ cacheLookup (handle_alert_logic pfx w d).2.cache (cacheKeyOf d) = none)
    ∧ (∀ i : Nat, resolved_ticket_id pfx w d = some i → w.closeFails = true →
        (handle_alert_logic pfx w d).1.outcomes = []) := by
  rcases hl : cacheLookup w.cache (cacheKeyOf d) with _ | v
  · rcases hfo : find_open_ticket w (ticketSummaryOf pfx d) with _ | t
    · simp [handle_alert_logic, up_after_resolve, hs, hc, hl, hfo, resolved_ticket_id]
    · have ht : t.id ≠ 0 := by
        simp [resolved_ticket_id, hl, hfo] at h0
        exact h0
      rcases hclf : w.closeFails
      · simp [handle_alert_logic, up_after_resolve, hs, hc, hl, hfo, resolved_ticket_id,
          ht, close_ticket_psa, hclf, cacheLookup_cDel_same]
        exact fun i => eq_comm
      · simp [handle_alert_logic, up_after_resolve, hs, hc, hl, hfo, resolved_ticket_id,
          ht, close_ticket_psa, hclf]
        exact fun i => eq_comm
  · have hv : v ≠ 0 := by
      simp [resolved_ticket_id, hl] at h0
      exact h0
    rcases hclf : w.closeFails
    · simp [handle_alert_logic, up_after_resolve, hs, hc, hl, resolved_ticket_id,
        hv, close_ticket_psa, hclf, cacheLookup_cDel_same]
      exact fun i => eq_comm
    · simp [handle_alert_logic, up_after_resolve, hs, hc, hl, resolved_ticket_id,
        hv, close_ticket_psa, hclf]
      exact fun i => eq_comm

/-- Witness for the amended C4 at a concrete cache-resolved successful
close. -/
theorem c4_up_close_amended_witness :
    (handle_alert_logic "Uptime Kuma Alert:" { exW with cache := [("ticket_state:DB", 7)] }
        (exD (some 1))).1.outcomes = [Outcome.counter "close" "success"]
    ∧ cacheLookup (handle_alert_logic "Uptime Kuma Alert:"
        { exW with cache := [("ticket_state:DB", 7)] } (exD (some 1))).2.cache
        (cacheKeyOf (exD (some 1))) = none :=
  (c4_up_close_amended "Uptime Kuma Alert:" { exW with cache := [("ticket_state:DB", 7)] }
      (exD (some 1)) (by decide) (by decide) (by decide)).2.2.1 7 (by decide) (by decide)

/-- Prepending one delay to a run of delays shifted by one attempt. -/
theorem cons_map_range (g : Nat → Nat) (k : Nat) (l : List Nat)
    (hl : l = (List.range l.length).map (fun i => g (k + 1 + i))) :
    g k :: l = (List.range (g k :: l).length).map (fun i => g (k + i)) := by
  conv_lhs => rw [hl]
  simp [List.range_succ_eq_map, List.map_map, Function.comp]
  exact fun a _ => congrArg g (by omega)

/-- Invariant of the Celery retry driver: starting at attempt `k` with `r`
retries remaining, at most `k + r + 1` executions happen, the recorded
delays are exactly `retry_delay k, retry_delay (k+1), ...`, at most `r`
delays occur, permanent failure happens only after exhausting every
attempt, and if every attempt in range fails the unit is permanently
failed. -/
theorem runAttempts_spec (f : Nat → Bool) :
    ∀ r k,
      (runAttempts f k r).attempts ≤ k + r + 1 ∧
      (runAttempts f k r).delays =
        (List.range (runAttempts f k r).delays.length).map (fun i => retry_delay (k + i)) ∧
      (runAttempts f k r).delays.length ≤ r ∧
      ((runAttempts f k r).permFailed = true →
        (runAttempts f k r).attempts = k + r + 1 ∧ (runAttempts f k r).delays.length = r) ∧
      ((∀ j, k ≤ j → j ≤ k + r → f j = true) → (runAttempts f k r).permFailed = true) := by
  intro r
  induction r with
  | zero =>
    intro k
    rcases h : f k with _ | _
    · have hr : runAttempts f k 0 = ⟨k + 1, [], false⟩ := by simp [runAttempts, h]
      rw [hr]
      refine ⟨by simp, by simp, by simp, by simp, ?_⟩
      intro hall
      have hk := hall k (le_refl k) (by omega)
      rw [h] at hk
      exact hk
    · have hr : runAttempts f k 0 = ⟨k + 1, [], true⟩ := by simp [runAttempts, h]
      rw [hr]
      exact ⟨by simp, by simp, by simp, by simp, by simp⟩
  | succ r ih =>
    intro k
    rcases h : f k with _ | _
    · have hr : runAttempts f k (r + 1) = ⟨k + 1, [], false⟩ := by simp [runAttempts, h]
      rw [hr]
      refine ⟨by simp, by simp, by simp, by simp, ?_⟩
      intro hall
      have hk := hall k (le_refl k) (by omega)
      rw [h] at hk
      exact hk
    · obtain ⟨ih1, ih2, ih3, ih4, ih5⟩ := ih (k + 1)
      have hr : runAttempts f k (r + 1) =
          ⟨(runAttempts f (k + 1) r).attempts,
           retry_delay k :: (runAttempts f (k + 1) r).delays,
           (runAttempts f (k + 1) r).permFailed⟩ := by
        simp [runAttempts, h]
      rw [hr]
      refine ⟨by simp; omega, ?_, by simp; omega, ?_, ?_⟩
      · exact cons_map_range retry_delay k _ ih2
      · intro hp
        obtain ⟨ha, hl⟩ := ih4 hp
        constructor
        · simp
          omega
        · simp [hl]
      · intro hall
        exact ih5 (fun j hj1 hj2 => hall j (by omega) (by omega))

/-- C8: a unit whose body raises is retried with delays
`retry_delay 0, retry_delay 1, ...` = 60, 120, 240, ... seconds (strictly
increasing), with at most 5 retries and hence at most 6 executions; a unit
failing on every attempt is permanently failed after exactly 6 executions
with delays 60, 120, 240, 480, 960 — it is never attempted a 7th time. -/
theorem c8_retry_backoff (f : Nat → Bool) :
    (process_alert_task f).attempts ≤ 6 ∧
    (process_alert_task f).delays =
      (List.range (process_alert_task f).delays.length).map (fun i => retry_delay i) ∧
    List.Pairwise (· < ·) (process_alert_task f).delays ∧
    (process_alert_task f).delays.length ≤ 5 ∧
    ((process_alert_task f).permFailed = true →
      (process_alert_task f).attempts = 6 ∧
      (process_alert_task f).delays = [60, 120, 240, 480, 960]) ∧
    ((∀ j, j ≤ 5 → f j = true) → (process_alert_task f).permFailed = true) := by
  obtain ⟨h1, h2, h3, h4, h5⟩ := runAttempts_spec f 5 0
  simp only [Nat.zero_add] at h1 h2 h3 h4 h5
  have hmono : ∀ a b : Nat, a < b → retry_delay a < retry_delay b := by
    intro a b hab
    have hp := Nat.pow_lt_pow_right (by norm_num : 1 < 2) hab
    simp only [retry_delay]
    omega
  refine ⟨?_, ?_, ?_, ?_, ?_, ?_⟩
  · simpa [process_alert_task] using h1
  · simpa [process_alert_task] using h2
  · show List.Pairwise (· < ·) (runAttempts f 0 5).delays
    rw [h2]
    exact List.Pairwise.map retry_delay (fun a b => hmono a b) (List.pairwise_lt_range _)
  · simpa [process_alert_task] using h3
  · intro hp
    rw [process_alert_task] at hp
    obtain ⟨ha, hl⟩ := h4 hp
    refine ⟨by simpa [process_alert_task] using ha, ?_⟩
    show (runAttempts f 0 5).delays = [60, 120, 240, 480, 960]
    rw [h2, hl]
    decide
  · intro hall
    show (runAttempts f 0 5).permFailed = true
    exact h5 (fun j hj1 hj2 => hall j (by omega))

/-- Witness for C8: a unit that raises on every execution. -/
theorem c8_retry_backoff_witness :
    (process_alert_task (fun _ => true)).permFailed = true
    ∧ (process_alert_task (fun _ => true)).attempts = 6
    ∧ (process_alert_task (fun _ => true)).delays = [60, 120, 240, 480, 960] :=
  ⟨(c8_retry_backoff (fun _ => true)).2.2.2.2.2 (fun _ _ => rfl),
   ((c8_retry_backoff (fun _ => true)).2.2.2.2.1
      ((c8_retry_backoff (fun _ => true)).2.2.2.2.2 (fun _ _ => rfl))).1,
   ((c8_retry_backoff (fun _ => true)).2.2.2.2.1
      ((c8_retry_backoff (fun _ => true)).2.2.2.2.2 (fun _ _ => rfl))).2⟩

/-- C9: the first `#CW(\w+)` match in the monitor name gives the company
id: `"API Gateway #CW4821 prod"` yields `"4821"`, `"API Gateway"` yields
none; and in ticket creation a missing extracted id falls back to the
(non-empty) environment default, while a non-empty extracted id takes
precedence over any default. -/
theorem c9_company_id :
    extract_company_id "API Gateway #CW4821 prod" = some "4821"
    ∧ extract_company_id "API Gateway" = none
    ∧ (∀ dflt : String, dflt ≠ "" → target_company_id none (some dflt) = some dflt)
    ∧ (∀ cid : String, cid ≠ "" →
        ∀ dflt : Option String, target_company_id (some cid) dflt = some cid) := by
  refine ⟨by decide, by decide, ?_, ?_⟩
  · intro dflt hd
    simp [target_company_id, hd]
  · intro cid hc dflt
    simp [target_company_id, hc]

/-- Witness for C9's fallback clause at a concrete non-empty default. -/
theorem c9_company_id_witness :
    ("ACME" : String) ≠ "" ∧ target_company_id none (some "ACME") = some "ACME" :=
  ⟨by decide, c9_company_id.2.2.1 "ACME" (by decide)⟩

/-- C10: `close_ticket` returns `True` exactly when the status PATCH
succeeds and the note POST does not raise; whether the note's HTTP response
was a success is never inspected (flipping it leaves the result unchanged);
and the ticket's status is changed whenever the PATCH succeeds — so when
the note POST raises after a successful PATCH, the call returns `False`
although the status was already changed to closed. -/
theorem c10_close_ticket_nonatomic (e : CloseEnv) :
    (close_ticket e).returned = (!e.patchRaises && e.patchStatusOk && !e.noteRaises)
    ∧ (close_ticket e).statusChanged = (!e.patchRaises && e.patchStatusOk)
    ∧ close_ticket e = close_ticket { e with noteStatusOk := !e.noteStatusOk } := by
  rcases e with ⟨_ | _, _ | _, _ | _, _ | _⟩ <;> decide
